import Mathlib

/-!
Verification development for the multi-source air-quality fusion and
forecast engine (Backend/app/services/data_fusion_service.py,
Backend/app/services/enhanced_prediction_service.py and the HTTP layer in
Backend/app/routes/data_fusion.py).

Modelling conventions.
* Python floats are idealised as exact rationals; `round(x, n)` is modelled
  as round-half-to-even at `n` decimal places, the documented behaviour of
  the Python builtin.
* The haversine distance `_calculate_distance` is trigonometric; it is
  abstracted as a function parameter `d : QQ -> QQ -> QQ -> QQ -> QQ`
  (target lat, target lon, measurement lat, measurement lon).  All theorems
  hold for every such function, hence in particular for the haversine one.
* `math.sqrt` inside `_calculate_uncertainty` is likewise abstracted as a
  parameter `msqrt`; the clamping theorems hold for every choice of it.
* `math.exp` inside `_calculate_distance_weight` is modelled exactly, with
  `Real.exp`, in a separate real-valued development of the distance-weight
  chain.
* Stochastic draws (`np.random.normal`) are modelled as explicit jitter
  parameters carrying the realised value of the draw.
* Python exceptions (`ZeroDivisionError` in the weighted averages) are
  modelled with `Except Unit`.
-/

namespace Fusion

/-- Rounding half to even at integer precision, the Python `round` builtin on
exact values. -/
def roundHalfEven (q : ℚ) : ℤ :=
  if q - ⌊q⌋ < 1 / 2 then ⌊q⌋
  else if 1 / 2 < q - ⌊q⌋ then ⌊q⌋ + 1
  else if ⌊q⌋ % 2 = 0 then ⌊q⌋ else ⌊q⌋ + 1

/-- Rounding half to even at `n` decimal places, the Python `round(x, n)`. -/
def roundDp (n : ℕ) (q : ℚ) : ℚ :=
  (roundHalfEven (q * 10 ^ n) : ℚ) / 10 ^ n

/-- Python `round(x, 2)`, used for every reported value. -/
def round2 (q : ℚ) : ℚ :=
  roundDp 2 q

/-- Measurement source, as tagged in `_fuse_pollutant_data`. -/
inductive Source where
  | satellite
  | ground
  deriving DecidableEq, Repr

/-- Pollutants accepted by the HTTP layer (`valid_pollutants`). -/
inductive Pollutant where
  | NO2
  | O3
  | PM25
  | PM10
  | HCHO
  | SO2
  | CO
  deriving DecidableEq, Repr

/-- One normalised measurement as assembled by `_fuse_pollutant_data`:
`weight` is the stored quality-and-distance weight, `ageHours` the age of the
parsed timestamp (`none` when parsing fails). -/
structure Meas where
  source : Source
  lat : ℚ
  lon : ℚ
  value : ℚ
  unit : String
  weight : ℚ
  ageHours : Option ℚ
  deriving DecidableEq, Repr

instance : BEq Source := ⟨fun a b => decide (a = b)⟩

/-- The `np.mean` of a list of rationals (unreachable for empty lists in the
guarded call sites). -/
def qmean (xs : List ℚ) : ℚ :=
  xs.sum / xs.length

/-- The inverse-distance weight computed inside `_spatial_fusion` for each
ground sensor: `1.0` for a very close sensor (`distance_km < 0.1`), else
`1 / (1 + distance_km ** 2)`.  Stated over any linear ordered field so the
same definition serves the rational model and the real-valued
distance-weight development. -/
def inFusionDistWeight {K : Type} [LinearOrderedField K] (dk : K) : K :=
  if dk < 1 / 10 then 1 else 1 / (1 + dk ^ 2)

/-- The final weight `measurement.weight * distance_weight` of one ground
measurement inside `_spatial_fusion`, with the haversine distance to the
target abstracted as `d`. -/
def groundFinalWeight (d : ℚ → ℚ → ℚ → ℚ → ℚ) (tlat tlon : ℚ) (m : Meas) : ℚ :=
  m.weight * inFusionDistWeight (d tlat tlon m.lat m.lon)

/-- The satellite block of `_spatial_fusion`: contribution to `fused_value`
and to `total_weight` from the satellite subset, namely
`mean(values) * mean(weights) * 0.3` and `mean(weights) * 0.3`, or `(0, 0)`
when the subset is empty. -/
def satBranch (sats : List Meas) : ℚ × ℚ :=
  if sats.isEmpty then (0, 0)
  else
    (qmean (sats.map Meas.value) * qmean (sats.map Meas.weight) * (3 / 10),
      qmean (sats.map Meas.weight) * (3 / 10))

/-- The ground block of `_spatial_fusion`: contribution to `fused_value` and
`total_weight` from the ground subset, namely
`weighted_avg * min(total_ground_weight, 1) * 0.7` and
`min(total_ground_weight, 1) * 0.7`, or `(0, 0)` when the subset is empty.
The division `sum(ground_values) / sum(ground_weights)` raises
`ZeroDivisionError` in Python when the final weights sum to zero; this is
modelled as `Except.error ()`. -/
def groundBranch (d : ℚ → ℚ → ℚ → ℚ → ℚ) (tlat tlon : ℚ) (grounds : List Meas) :
    Except Unit (ℚ × ℚ) :=
  if grounds.isEmpty then Except.ok (0, 0)
  else
    let fw := grounds.map (groundFinalWeight d tlat tlon)
    if fw.sum = 0 then Except.error ()
    else
      let gavg := ((grounds.zip fw).map (fun q => q.1.value * q.2)).sum / fw.sum
      Except.ok (gavg * min fw.sum 1 * (7 / 10), min fw.sum 1 * (7 / 10))

/-- The `_spatial_fusion` method.  A single measurement is returned as is;
otherwise the satellite and ground blocks accumulate into `fused_value` and
`total_weight`, the sum is divided by the total weight when that is
positive, and the unweighted mean of all values is the fallback. -/
def spatialFusion (d : ℚ → ℚ → ℚ → ℚ → ℚ) (tlat tlon : ℚ) (ms : List Meas) :
    Except Unit ℚ :=
  match ms with
  | [m] => Except.ok m.value
  | _ =>
    match groundBranch d tlat tlon (ms.filter (fun m => m.source == Source.ground)) with
    | Except.error e => Except.error e
    | Except.ok g =>
      let s := satBranch (ms.filter (fun m => m.source == Source.satellite))
      if 0 < s.2 + g.2 then Except.ok ((s.1 + g.1) / (s.2 + g.2))
      else Except.ok (qmean (ms.map Meas.value))

/-- The total accumulated blend weight of `_spatial_fusion` (the local
variable `total_weight` just before the final normalisation), exposed as a
definition so theorems can speak about the zero-total-weight fallback.  In
the Python error case (which aborts before `total_weight` is complete) it is
read as zero. -/
def fusionTotalWeight (d : ℚ → ℚ → ℚ → ℚ → ℚ) (tlat tlon : ℚ) (ms : List Meas) : ℚ :=
  (satBranch (ms.filter (fun m => m.source == Source.satellite))).2 +
    (match groundBranch d tlat tlon (ms.filter (fun m => m.source == Source.ground)) with
     | Except.ok g => g.2
     | Except.error _ => 0)

/-- All pairwise haversine distances, in the enumeration order of the nested
loops of `_calculate_uncertainty` and `_assess_data_quality`. -/
def pairwiseDistances (d : ℚ → ℚ → ℚ → ℚ → ℚ) : List Meas → List ℚ
  | [] => []
  | m :: rest =>
    rest.map (fun m2 => d m.lat m.lon m2.lat m2.lon) ++ pairwiseDistances d rest

/-- Python `max(xs) if xs else 0`. -/
def qmaxD (xs : List ℚ) : ℚ :=
  match xs with
  | [] => 0
  | x :: rest => rest.foldl max x

/-- The `_calculate_uncertainty` method: flat 30 percent for at most one
measurement; otherwise the square root of the weighted variance scaled by a
source-diversity factor and a spatial-spread factor, clamped to
`[0.1 * fused, 0.5 * fused]`.  `math.sqrt` is abstracted as `msqrt`; the
division by `sum(weights)` raises in Python when that sum is zero, modelled
as `Except.error ()`. -/
def calcUncertainty (msqrt : ℚ → ℚ) (d : ℚ → ℚ → ℚ → ℚ → ℚ) (ms : List Meas)
    (fused : ℚ) : Except Unit ℚ :=
  if ms.length ≤ 1 then Except.ok ((3 / 10) * fused)
  else
    let wsum := (ms.map Meas.weight).sum
    if wsum = 0 then Except.error ()
    else
      let wmean := (ms.map (fun m => m.value * m.weight)).sum / wsum
      let wvar := (ms.map (fun m => m.weight * (m.value - wmean) ^ 2)).sum / wsum
      let mUnc := msqrt wvar
      let srcFactor : ℚ :=
        if 1 < ((ms.map Meas.source).dedup).length then 4 / 5 else 6 / 5
      let spatialFactor : ℚ :=
        if 2 < ms.length then 1 + qmaxD (pairwiseDistances d ms) / 100
        else 11 / 10
      let total := mUnc * srcFactor * spatialFactor
      Except.ok (min (max total ((1 / 10) * fused)) ((1 / 2) * fused))

/-- One confidence band as returned by `_calculate_confidence_intervals`. -/
structure Band where
  lower : ℚ
  upper : ℚ
  range : ℚ
  deriving DecidableEq, Repr

/-- The pair of bands plus the percentage field of
`_calculate_confidence_intervals`. -/
structure ConfIntervals where
  ci68 : Band
  ci95 : Band
  uncertaintyPercent : ℚ
  deriving DecidableEq, Repr

/-- The `_calculate_confidence_intervals` method: 68 percent band is
`value ± uncertainty`, 95 percent band is `value ± 2 * uncertainty`, lower
ends clamped to zero, every reported number rounded to 2 decimals (the
percentage to 1 decimal). -/
def calcConfidenceIntervals (value uncertainty : ℚ) : ConfIntervals :=
  let l68 := max 0 (value - uncertainty)
  let u68 := value + uncertainty
  let l95 := max 0 (value - 2 * uncertainty)
  let u95 := value + 2 * uncertainty
  { ci68 := ⟨round2 l68, round2 u68, round2 (u68 - l68)⟩
    ci95 := ⟨round2 l95, round2 u95, round2 (u95 - l95)⟩
    uncertaintyPercent :=
      if 0 < value then roundDp 1 (uncertainty / value * 100) else 0 }

/-- Quality assessment result of `_assess_data_quality`. -/
structure Quality where
  score : ℚ
  level : String
  factors : List String
  measurementCount : ℕ
  sourceDiversity : ℕ
  deriving DecidableEq, Repr

/-- Measurement-count contribution of `_assess_data_quality`: `+0.3` for at
least three measurements, `+0.2` for two, `+0.1` for one. -/
def countContribution (n : ℕ) : ℚ × String :=
  if 3 ≤ n then (3 / 10, "multiple_measurements")
  else if n = 2 then (2 / 10, "dual_measurements")
  else (1 / 10, "single_measurement")

/-- Source-diversity contribution of `_assess_data_quality`: `+0.3` with both
source types, `+0.2` ground only, `+0.15` satellite only. -/
def diversityContribution (ms : List Meas) : ℚ × List String :=
  let srcTypes := (ms.map Meas.source).dedup
  if srcTypes.contains Source.satellite ∧ srcTypes.contains Source.ground then
    (3 / 10, ["satellite_ground_fusion"])
  else if srcTypes.contains Source.ground then
    (2 / 10, ["ground_sensor_available"])
  else if srcTypes.contains Source.satellite then
    (15 / 100, ["satellite_data_available"])
  else (0, [])

/-- Number of measurements whose timestamp parses and is at most one hour
old, as counted by the freshness loop of `_assess_data_quality`. -/
def recentCount (ms : List Meas) : ℕ :=
  (ms.filter (fun m => match m.ageHours with
    | some a => decide (a ≤ 1)
    | none => false)).length

/-- Freshness contribution of `_assess_data_quality`:
`min(0.2, recent * 0.1)` when at least one recent measurement exists. -/
def freshnessContribution (ms : List Meas) : ℚ × List String :=
  if 0 < recentCount ms then
    (min (2 / 10) ((recentCount ms : ℚ) * (1 / 10)), ["recent_data"])
  else (0, [])

/-- Spatial-coverage contribution of `_assess_data_quality`: `+0.2` when the
maximal pairwise distance exceeds 10 km, `+0.1` when it exceeds 5 km,
requiring at least two measurements. -/
def spatialContribution (d : ℚ → ℚ → ℚ → ℚ → ℚ) (ms : List Meas) : ℚ × List String :=
  if 1 < ms.length then
    let dists := pairwiseDistances d ms
    if dists.isEmpty then (0, [])
    else
      let md := qmaxD dists
      if 10 < md then (2 / 10, ["good_spatial_coverage"])
      else if 5 < md then (1 / 10, ["moderate_spatial_coverage"])
      else (0, [])
  else (0, [])

/-- Level thresholds of `_assess_data_quality`. -/
def qualityLevelOf (score : ℚ) : String :=
  if 8 / 10 ≤ score then "excellent"
  else if 6 / 10 ≤ score then "good"
  else if 4 / 10 ≤ score then "fair"
  else if 2 / 10 ≤ score then "poor"
  else "very_poor"

/-- The `_assess_data_quality` method: the empty list maps to score `0.0`
with level `no_data`; otherwise the four independently capped contributions
are summed, the level read off the thresholds, and the score reported
rounded to two decimals. -/
def assessDataQuality (d : ℚ → ℚ → ℚ → ℚ → ℚ) (ms : List Meas) : Quality :=
  if ms.isEmpty then ⟨0, "no_data", [], 0, 0⟩
  else
    let c := countContribution ms.length
    let dv := diversityContribution ms
    let fr := freshnessContribution ms
    let sp := spatialContribution d ms
    let score := c.1 + dv.1 + fr.1 + sp.1
    { score := round2 score
      level := qualityLevelOf score
      factors := [c.2] ++ dv.2 ++ fr.2 ++ sp.2
      measurementCount := ms.length
      sourceDiversity := ((ms.map Meas.source).dedup).length }

/-- Weather covariates consumed by `_generate_estimated_value` (the provider
fills in defaults for missing fields). -/
structure WeatherInfo where
  windSpeed : ℚ
  pblHeight : ℚ
  deriving DecidableEq, Repr

/-- Fixed baseline table `base_values` of `_generate_estimated_value`. -/
def baseValue : Pollutant → ℚ
  | Pollutant.NO2 => 25
  | Pollutant.O3 => 60
  | Pollutant.PM25 => 15
  | Pollutant.PM10 => 25
  | Pollutant.HCHO => 12
  | Pollutant.SO2 => 8
  | Pollutant.CO => 6 / 5

/-- Wind dilution factor `1.0 - min(0.3, wind_speed / 20.0)`. -/
def windFactor (windSpeed : ℚ) : ℚ :=
  1 - min (3 / 10) (windSpeed / 20)

/-- Boundary-layer factor `1.0 + max(-0.2, min(0.2, (800 - pbl) / 1000))`. -/
def pblFactor (pblHeight : ℚ) : ℚ :=
  1 + max (-(2 / 10)) (min (2 / 10) ((800 - pblHeight) / 1000))

/-- Result record of `_generate_estimated_value`. -/
structure EstimatedResult where
  value : ℚ
  uncertainty : ℚ
  qualityScore : ℚ
  qualityLevel : String
  ci68 : ℚ × ℚ
  ci95 : ℚ × ℚ
  deriving DecidableEq, Repr

/-- The `_generate_estimated_value` method: the pollutant baseline, scaled by
the wind and boundary-layer factors when weather context is available, plus
the realised stochastic variation `jitter`, clamped at zero.  Result fields
follow the source: quality score `0.2`, level `estimated`, uncertainty
`0.4 * value`, 68 and 95 percent bands at `±30` and `±50` percent. -/
def generateEstimatedValue (p : Pollutant) (weather : Option WeatherInfo)
    (jitter : ℚ) : EstimatedResult :=
  let base := baseValue p
  let base :=
    match weather with
    | some w => base * (windFactor w.windSpeed * pblFactor w.pblHeight)
    | none => base
  let est := max 0 (base + jitter)
  { value := round2 est
    uncertainty := round2 (est * (4 / 10))
    qualityScore := 2 / 10
    qualityLevel := "estimated"
    ci68 := (round2 (est * (7 / 10)), round2 (est * (13 / 10)))
    ci95 := (round2 (est * (5 / 10)), round2 (est * (15 / 10))) }

/-- The raw estimated value of `_generate_estimated_value` (the local
variable `estimated_value` before any rounding): the pollutant baseline,
scaled by the wind and boundary-layer factors exactly when weather context
is available, plus the realised jitter, clamped at zero.  Exposed as its own
definition so the field relations of the estimator result can be stated for
every weather context at once. -/
def estimatedRawValue (p : Pollutant) (weather : Option WeatherInfo)
    (jitter : ℚ) : ℚ :=
  let base := baseValue p
  let base :=
    match weather with
    | some w => base * (windFactor w.windSpeed * pblFactor w.pblHeight)
    | none => base
  max 0 (base + jitter)

/-- Success record of `_fuse_pollutant_data` (the fields the specification
constrains). -/
structure FusedSuccess where
  fusedValue : ℚ
  unit : String
  ci : ConfIntervals
  uncertainty : ℚ
  quality : Quality
  totalMeasurements : ℕ
  satelliteCount : ℕ
  groundCount : ℕ
  deriving DecidableEq, Repr

/-- Outcome of `_fuse_pollutant_data`: either a fused success record or the
estimated fallback for an empty measurement list. -/
inductive FuseOutcome where
  | success (r : FusedSuccess)
  | estimated (r : EstimatedResult)
  deriving DecidableEq, Repr

/-- The `_fuse_pollutant_data` method: an empty measurement list routes to
`_generate_estimated_value`; otherwise the raw fused value and raw
uncertainty are computed and the reported record rounds both to two
decimals.  Exceptions inside fusion or the uncertainty computation
propagate (they are caught by the per-pollutant handler of the entry
point). -/
def fusePollutantData (msqrt : ℚ → ℚ) (d : ℚ → ℚ → ℚ → ℚ → ℚ) (tlat tlon : ℚ)
    (p : Pollutant) (weather : Option WeatherInfo) (jitter : ℚ)
    (ms : List Meas) : Except Unit FuseOutcome :=
  if ms.isEmpty then
    Except.ok (FuseOutcome.estimated (generateEstimatedValue p weather jitter))
  else
    match spatialFusion d tlat tlon ms with
    | Except.error e => Except.error e
    | Except.ok fused =>
      match calcUncertainty msqrt d ms fused with
      | Except.error e => Except.error e
      | Except.ok unc =>
        Except.ok (FuseOutcome.success
          { fusedValue := round2 fused
            unit := (ms.head?.map Meas.unit).getD "µg/m³"
            ci := calcConfidenceIntervals fused unc
            uncertainty := round2 unc
            quality := assessDataQuality d ms
            totalMeasurements := ms.length
            satelliteCount := (ms.filter (fun m => m.source == Source.satellite)).length
            groundCount := (ms.filter (fun m => m.source == Source.ground)).length })

/-- Hourly multiplier table for NO2 in `_get_hourly_pattern` (traffic
pattern, rush-hour peaks); the final catch-all is the `.get(hour, 1.0)`
default. -/
def hourlyNO2 : ℕ → ℚ
  | 0 => 6 / 10
  | 1 => 5 / 10
  | 2 => 4 / 10
  | 3 => 4 / 10
  | 4 => 5 / 10
  | 5 => 7 / 10
  | 6 => 9 / 10
  | 7 => 12 / 10
  | 8 => 13 / 10
  | 9 => 11 / 10
  | 10 => 1
  | 11 => 1
  | 12 => 1
  | 13 => 1
  | 14 => 1
  | 15 => 1
  | 16 => 11 / 10
  | 17 => 13 / 10
  | 18 => 12 / 10
  | 19 => 1
  | 20 => 9 / 10
  | 21 => 8 / 10
  | 22 => 7 / 10
  | 23 => 6 / 10
  | _ => 1

/-- Hourly multiplier table for O3 in `_get_hourly_pattern` (photochemical
pattern, afternoon peak). -/
def hourlyO3 : ℕ → ℚ
  | 0 => 5 / 10
  | 1 => 4 / 10
  | 2 => 4 / 10
  | 3 => 4 / 10
  | 4 => 4 / 10
  | 5 => 5 / 10
  | 6 => 6 / 10
  | 7 => 7 / 10
  | 8 => 8 / 10
  | 9 => 9 / 10
  | 10 => 1
  | 11 => 11 / 10
  | 12 => 12 / 10
  | 13 => 13 / 10
  | 14 => 13 / 10
  | 15 => 12 / 10
  | 16 => 11 / 10
  | 17 => 1
  | 18 => 9 / 10
  | 19 => 8 / 10
  | 20 => 7 / 10
  | 21 => 6 / 10
  | 22 => 5 / 10
  | 23 => 5 / 10
  | _ => 1

/-- Hourly multiplier table for PM2.5 in `_get_hourly_pattern` (stable, mild
morning and evening peaks). -/
def hourlyPM25 : ℕ → ℚ
  | 0 => 8 / 10
  | 1 => 7 / 10
  | 2 => 7 / 10
  | 3 => 7 / 10
  | 4 => 8 / 10
  | 5 => 9 / 10
  | 6 => 1
  | 7 => 11 / 10
  | 8 => 11 / 10
  | 9 => 1
  | 10 => 1
  | 11 => 1
  | 12 => 1
  | 13 => 1
  | 14 => 1
  | 15 => 1
  | 16 => 1
  | 17 => 11 / 10
  | 18 => 11 / 10
  | 19 => 1
  | 20 => 9 / 10
  | 21 => 9 / 10
  | 22 => 8 / 10
  | 23 => 8 / 10
  | _ => 1

/-- The `_get_hourly_pattern` method; pollutants without a table fall back to
the PM2.5 table via `patterns.get(pollutant, patterns[PM2.5])`. -/
def getHourlyPattern (p : Pollutant) (hour : ℕ) : ℚ :=
  match p with
  | Pollutant.NO2 => hourlyNO2 hour
  | Pollutant.O3 => hourlyO3 hour
  | Pollutant.PM25 => hourlyPM25 hour
  | _ => hourlyPM25 hour

/-- Weekday factor lists of `_get_daily_pattern` (index 0 is Monday);
pollutants without a list fall back to the PM2.5 list. -/
def dailyFactors (p : Pollutant) : List ℚ :=
  match p with
  | Pollutant.NO2 => [11 / 10, 11 / 10, 11 / 10, 11 / 10, 11 / 10, 9 / 10, 8 / 10]
  | Pollutant.O3 => [1, 1, 1, 1, 1, 1, 1]
  | _ => [11 / 10, 11 / 10, 11 / 10, 11 / 10, 1, 9 / 10, 9 / 10]

/-- The `_get_daily_pattern` method.  The Python code indexes the factor list
directly; the index is always the result of `weekday()` and hence below 7, so
the out-of-range default is never consulted. -/
def getDailyPattern (p : Pollutant) (dayOfWeek : ℕ) : ℚ :=
  (dailyFactors p).getD dayOfWeek 0

/-- One entry of the forecast sequence built by `_generate_ml_prediction`. -/
structure ForecastPoint where
  value : ℚ
  uncertainty : ℚ
  ciLower : ℚ
  ciUpper : ℚ
  deriving DecidableEq, Repr

/-- The loop body of `_generate_ml_prediction` for forecast offset `h`
(hours ahead of the current time, which sits at hour-of-day `h0` and weekday
`dw0`).  `currentOpt` and `uncOpt` are the optional fused-value and fused-
uncertainty features (`features.get` with defaults 25.0 and
`predicted * 0.2`); `jitter h` is the realised `np.random.normal` draw of
that iteration. -/
def predictionAtHour (jitter : ℕ → ℚ) (currentOpt uncOpt : Option ℚ)
    (p : Pollutant) (h0 dw0 : ℕ) (h : ℕ) : ForecastPoint :=
  let hod := (h0 + h) % 24
  let dow := (dw0 + (h0 + h) / 24) % 7
  let base := currentOpt.getD 25
  let hourFactor := getHourlyPattern p hod
  let dayFactor := getDailyPattern p dow
  let predicted := max 0 (base * hourFactor * dayFactor + jitter h)
  let baseUnc := uncOpt.getD (predicted * (2 / 10))
  let timeUnc := baseUnc * (1 + (h : ℚ) * (5 / 100))
  { value := round2 predicted
    uncertainty := round2 timeUnc
    ciLower := max 0 (round2 predicted - round2 timeUnc)
    ciUpper := round2 predicted + round2 timeUnc }

/-- The forecast sequence of `_generate_ml_prediction`: one point per hour
`h = 1 .. forecastHours`. -/
def mlPredictionPoints (jitter : ℕ → ℚ) (currentOpt uncOpt : Option ℚ)
    (p : Pollutant) (h0 dw0 : ℕ) (forecastHours : ℕ) : List ForecastPoint :=
  (List.range forecastHours).map
    (fun i => predictionAtHour jitter currentOpt uncOpt p h0 dw0 (i + 1))

/-- The `_calculate_distance_weight` method, over the reals since it calls
`math.exp`: zero at or above the search radius, otherwise exponential decay
`exp(-distance / (radius / 3))`. -/
noncomputable def calcDistanceWeight (distanceKm maxRadiusKm : ℝ) : ℝ :=
  if maxRadiusKm ≤ distanceKm then 0
  else Real.exp (-(distanceKm / (maxRadiusKm / 3)))

/-- Ground base weight `quality_weights[ground_sensor]`. -/
def groundBaseWeight : ℝ := 1

/-- The complete effective weight a ground measurement carries into the
fused blend: the stored weight
`ground_base_weight * _calculate_distance_weight(distance_km, radius_km)`
assigned in `_fuse_pollutant_data`, multiplied inside `_spatial_fusion` by
the inverse-distance weight of the recomputed haversine distance.  Here the
recomputed distance is assumed to agree with the provider-reported
`distance_km`, both denoted `dk`. -/
noncomputable def groundEffectiveWeight (dk r : ℝ) : ℝ :=
  (groundBaseWeight * calcDistanceWeight dk r) * inFusionDistWeight dk

/-- Per-pollutant fallback table `_get_fallback_value`. -/
def getFallbackValue : Pollutant → ℚ
  | Pollutant.NO2 => 20
  | Pollutant.O3 => 50
  | Pollutant.PM25 => 12
  | Pollutant.PM10 => 20
  | Pollutant.HCHO => 8
  | Pollutant.SO2 => 5
  | Pollutant.CO => 1

/-- Collected multi-source data as seen by the per-pollutant fusion loop:
the per-pollutant measurement lists and the optional weather context. -/
structure DataSources where
  measurementsFor : Pollutant → List Meas
  weather : Option WeatherInfo

/-- Per-pollutant entry of the top-level fusion response: a fused success, an
estimated fallback, an error entry carrying `_get_fallback_value` (the
per-pollutant exception handler), or a fallback-estimation entry (the outer
exception handler via `_get_fusion_fallback`). -/
inductive PollutantEntry where
  | success (r : FusedSuccess)
  | estimated (r : EstimatedResult)
  | error (fallbackValue : ℚ)
  | fallback (fusedValue : ℚ)

/-- Status tag of the top-level response of `get_fused_air_quality_data`. -/
inductive TopStatus where
  | success
  | fallback
  deriving DecidableEq, Repr

/-- Top-level response of `get_fused_air_quality_data`. -/
structure FusionResponse where
  status : TopStatus
  results : List (Pollutant × PollutantEntry)

/-- The public entry point `get_fused_air_quality_data`: the body runs under
a catch-all handler.  `collect` stands for `_collect_multi_source_data`
together with everything else inside the outer `try` that can raise; if it
raises, the whole response degrades to the `_get_fusion_fallback` record.
Each per-pollutant fusion runs under its own handler: a raising pollutant is
mapped to an error entry carrying its fallback value.  The function is
total: no exception escapes. -/
def getFusedAirQualityData (collect : Except String DataSources)
    (msqrt : ℚ → ℚ) (d : ℚ → ℚ → ℚ → ℚ → ℚ) (tlat tlon : ℚ)
    (jitter : Pollutant → ℚ) (ps : List Pollutant) : FusionResponse :=
  match collect with
  | Except.error _ =>
    { status := TopStatus.fallback
      results := ps.map (fun p => (p, PollutantEntry.fallback (getFallbackValue p))) }
  | Except.ok ds =>
    { status := TopStatus.success
      results := ps.map (fun p =>
        (p, match fusePollutantData msqrt d tlat tlon p ds.weather (jitter p)
              (ds.measurementsFor p) with
            | Except.ok (FuseOutcome.success r) => PollutantEntry.success r
            | Except.ok (FuseOutcome.estimated r) => PollutantEntry.estimated r
            | Except.error _ => PollutantEntry.error (getFallbackValue p))) }

/-- Response of the enhanced-prediction HTTP handler: a 200 payload, or a
400 structured error for structurally invalid input.  The 500 branch of the
source fires only when the service call raises, which the service-level
catch-all prevents; the model therefore takes the service as a total
function. -/
inductive RouteResponse (A : Type) where
  | ok (code : ℕ) (payload : A)
  | badRequest (code : ℕ) (message : String)

/-- Pollutant names accepted by the enhanced-prediction route. -/
def validPollutantNames : List String :=
  ["NO2", "O3", "PM2.5", "PM10", "HCHO", "SO2", "CO"]

/-- The `/enhanced-prediction` route handler `get_enhanced_prediction`:
missing or out-of-range coordinates, an unknown pollutant name, or
out-of-range forecast hours are rejected with a 400 structured error;
otherwise the service result is returned with code 200. -/
def enhancedPredictionRoute {A : Type} (latOpt lonOpt : Option ℚ)
    (pollutant : String) (forecastHours : ℤ)
    (service : ℚ → ℚ → String → ℤ → A) : RouteResponse A :=
  match latOpt, lonOpt with
  | none, _ => RouteResponse.badRequest 400 "Missing required parameters"
  | _, none => RouteResponse.badRequest 400 "Missing required parameters"
  | some lat, some lon =>
    if ¬(-90 ≤ lat ∧ lat ≤ 90) ∨ ¬(-180 ≤ lon ∧ lon ≤ 180) then
      RouteResponse.badRequest 400 "Invalid coordinates"
    else if ¬validPollutantNames.contains pollutant then
      RouteResponse.badRequest 400 "Invalid pollutant"
    else if ¬(1 ≤ forecastHours ∧ forecastHours ≤ 72) then
      RouteResponse.badRequest 400 "Invalid forecast hours"
    else RouteResponse.ok 200 (service lat lon pollutant forecastHours)

/-! Helper lemmas about rounding. -/

theorem roundHalfEven_ge_floor (q : ℚ) : ⌊q⌋ ≤ roundHalfEven q := by
  unfold roundHalfEven
  split_ifs <;> omega

theorem roundHalfEven_le_floor_add_one (q : ℚ) : roundHalfEven q ≤ ⌊q⌋ + 1 := by
  unfold roundHalfEven
  split_ifs <;> omega

theorem roundHalfEven_mono {a b : ℚ} (hab : a ≤ b) :
    roundHalfEven a ≤ roundHalfEven b := by
  rcases le_or_lt (⌊a⌋ + 1) ⌊b⌋ with h | h
  · calc roundHalfEven a ≤ ⌊a⌋ + 1 := roundHalfEven_le_floor_add_one a
    _ ≤ ⌊b⌋ := h
    _ ≤ roundHalfEven b := roundHalfEven_ge_floor b
  · have hfl : ⌊a⌋ = ⌊b⌋ := le_antisymm (Int.floor_le_floor hab) (by omega)
    have hb : (⌊a⌋ : ℚ) ≤ a := Int.floor_le a
    unfold roundHalfEven
    rw [← hfl]
    split_ifs <;> first | omega | linarith

theorem roundDp_mono (n : ℕ) {a b : ℚ} (hab : a ≤ b) : roundDp n a ≤ roundDp n b := by
  unfold roundDp
  have hpow : (0 : ℚ) < 10 ^ n := by positivity
  have h1 : roundHalfEven (a * 10 ^ n) ≤ roundHalfEven (b * 10 ^ n) :=
    roundHalfEven_mono (mul_le_mul_of_nonneg_right hab hpow.le)
  have h2 : ((roundHalfEven (a * 10 ^ n) : ℚ)) ≤ (roundHalfEven (b * 10 ^ n) : ℚ) := by
    exact_mod_cast h1
  exact div_le_div_of_nonneg_right h2 hpow.le

theorem round2_mono {a b : ℚ} (hab : a ≤ b) : round2 a ≤ round2 b :=
  roundDp_mono 2 hab

theorem round2_nonneg {q : ℚ} (hq : 0 ≤ q) : 0 ≤ round2 q := by
  unfold round2 roundDp
  have hfl : (0 : ℤ) ≤ ⌊q * 10 ^ 2⌋ := Int.floor_nonneg.mpr (by positivity)
  have h1 : (0 : ℤ) ≤ roundHalfEven (q * 10 ^ 2) :=
    le_trans hfl (roundHalfEven_ge_floor _)
  have h2 : (0 : ℚ) ≤ (roundHalfEven (q * 10 ^ 2) : ℚ) := by exact_mod_cast h1
  positivity

/-- C4: for every fused value (non-negative, as every fused estimate is) and
non-negative uncertainty, the reported confidence intervals contain the
reported fused value, the 95 percent band contains the 68 percent band, and
both lower bounds are non-negative. -/
theorem confidence_intervals_contain (v u : ℚ) (hv : 0 ≤ v) (hu : 0 ≤ u) :
    (calcConfidenceIntervals v u).ci68.lower ≤ round2 v ∧
    round2 v ≤ (calcConfidenceIntervals v u).ci68.upper ∧
    (calcConfidenceIntervals v u).ci95.lower ≤ (calcConfidenceIntervals v u).ci68.lower ∧
    (calcConfidenceIntervals v u).ci68.upper ≤ (calcConfidenceIntervals v u).ci95.upper ∧
    0 ≤ (calcConfidenceIntervals v u).ci68.lower ∧
    0 ≤ (calcConfidenceIntervals v u).ci95.lower := by
  unfold calcConfidenceIntervals
  refine ⟨?_, ?_, ?_, ?_, ?_, ?_⟩
  · exact round2_mono (max_le (by linarith) (by linarith))
  · exact round2_mono (by linarith)
  · exact round2_mono (max_le_max le_rfl (by linarith))
  · exact round2_mono (by linarith)
  · exact round2_nonneg (le_max_left 0 _)
  · exact round2_nonneg (le_max_left 0 _)

/-- Witness for `confidence_intervals_contain` at the concrete fused value 10
with uncertainty 2. -/
theorem confidence_intervals_contain_witness :
    (calcConfidenceIntervals 10 2).ci68.lower ≤ round2 10 ∧
    round2 10 ≤ (calcConfidenceIntervals 10 2).ci68.upper ∧
    (calcConfidenceIntervals 10 2).ci95.lower ≤ (calcConfidenceIntervals 10 2).ci68.lower ∧
    (calcConfidenceIntervals 10 2).ci68.upper ≤ (calcConfidenceIntervals 10 2).ci95.upper ∧
    0 ≤ (calcConfidenceIntervals 10 2).ci68.lower ∧
    0 ≤ (calcConfidenceIntervals 10 2).ci95.lower :=
  confidence_intervals_contain 10 2 (by norm_num) (by norm_num)

/-- C3: whenever the uncertainty computation completes on a positive fused
value, the result lies in `[0.1 * fused, 0.5 * fused]`, and with at most one
measurement it is exactly `0.3 * fused`. -/
theorem uncertainty_clamped (msqrt : ℚ → ℚ) (d : ℚ → ℚ → ℚ → ℚ → ℚ)
    (ms : List Meas) (fused u : ℚ)
    (hok : calcUncertainty msqrt d ms fused = Except.ok u) (hf : 0 < fused) :
    (1 / 10 * fused ≤ u ∧ u ≤ 1 / 2 * fused) ∧
    (ms.length ≤ 1 → u = 3 / 10 * fused) := by
  unfold calcUncertainty at hok
  by_cases hlen : ms.length ≤ 1
  · rw [if_pos hlen] at hok
    simp only [Except.ok.injEq] at hok
    subst hok
    exact ⟨⟨by linarith, by linarith⟩, fun _ => rfl⟩
  · rw [if_neg hlen] at hok
    by_cases hw : (ms.map Meas.weight).sum = 0
    · simp only [hw, if_pos] at hok
      exact Except.noConfusion hok
    · simp only [if_neg hw, Except.ok.injEq] at hok
      subst hok
      refine ⟨⟨le_min (le_max_right _ _) (by linarith), min_le_right _ _⟩, ?_⟩
      intro hcon
      exact absurd hcon hlen

/-- Witness for `uncertainty_clamped` on the empty measurement list with
fused value 10. -/
theorem uncertainty_clamped_witness :
    ((1 : ℚ) / 10 * 10 ≤ 3 ∧ (3 : ℚ) ≤ 1 / 2 * 10) ∧
    (([] : List Meas).length ≤ 1 → (3 : ℚ) = 3 / 10 * 10) :=
  uncertainty_clamped (fun q => q) (fun _ _ _ _ => 0) [] 10 3 (by norm_num [calcUncertainty])
    (by norm_num)

theorem source_beq_eq (a b : Source) : (a == b) = decide (a = b) := rfl

theorem spatialFusion_cons_cons (d : ℚ → ℚ → ℚ → ℚ → ℚ) (tlat tlon : ℚ)
    (a b : Meas) (t : List Meas) :
    spatialFusion d tlat tlon (a :: b :: t) =
      (match groundBranch d tlat tlon
          ((a :: b :: t).filter (fun m => m.source == Source.ground)) with
       | Except.error e => Except.error e
       | Except.ok g =>
         let s := satBranch ((a :: b :: t).filter (fun m => m.source == Source.satellite))
         if 0 < s.2 + g.2 then Except.ok ((s.1 + g.1) / (s.2 + g.2))
         else Except.ok (qmean ((a :: b :: t).map Meas.value))) := rfl

/-- C1: with at least two measurements, the division by the accumulated
total weight renormalises the blend fractions over the branches actually
present: a satellite-only list fuses to the plain mean of the satellite
values, a ground-only list with positive total effective weight fuses to
the effective-weight weighted mean of the ground values, and whenever the
total accumulated weight is zero the returned value is the unweighted mean
of all measurement values. -/
theorem spatial_fusion_renormalized (d : ℚ → ℚ → ℚ → ℚ → ℚ) (tlat tlon : ℚ)
    (ms : List Meas) (h2 : 2 ≤ ms.length) :
    ((∀ m ∈ ms, m.source = Source.satellite) →
      spatialFusion d tlat tlon ms = Except.ok (qmean (ms.map Meas.value))) ∧
    ((∀ m ∈ ms, m.source = Source.ground) →
      0 < (ms.map (groundFinalWeight d tlat tlon)).sum →
      spatialFusion d tlat tlon ms = Except.ok
        (((ms.zip (ms.map (groundFinalWeight d tlat tlon))).map
            (fun q => q.1.value * q.2)).sum /
          (ms.map (groundFinalWeight d tlat tlon)).sum)) ∧
    (∀ q, spatialFusion d tlat tlon ms = Except.ok q →
      fusionTotalWeight d tlat tlon ms = 0 → q = qmean (ms.map Meas.value)) := by
  obtain ⟨a, b, t, rfl⟩ : ∃ a b t, ms = a :: b :: t := by
    match ms, h2 with
    | a :: b :: t, _ => exact ⟨a, b, t, rfl⟩
  refine ⟨?_, ?_, ?_⟩
  · intro hall
    have hg : (a :: b :: t).filter (fun m => m.source == Source.ground) = [] :=
      List.filter_eq_nil_iff.mpr (fun m hm => by
        rw [source_beq_eq]
        simp [hall m hm])
    have hs : (a :: b :: t).filter (fun m => m.source == Source.satellite) = a :: b :: t :=
      List.filter_eq_self.mpr (fun m hm => by
        rw [source_beq_eq]
        exact decide_eq_true (hall m hm))
    rw [spatialFusion_cons_cons, hg, hs]
    have hsimp : groundBranch d tlat tlon [] = Except.ok (0, 0) := rfl
    rw [hsimp]
    have hsb : satBranch (a :: b :: t) =
        (qmean ((a :: b :: t).map Meas.value) * qmean ((a :: b :: t).map Meas.weight) * (3 / 10),
          qmean ((a :: b :: t).map Meas.weight) * (3 / 10)) := rfl
    simp only [hsb]
    by_cases hsw : 0 < qmean ((a :: b :: t).map Meas.weight) * (3 / 10) + 0
    · rw [if_pos hsw]
      have hne : qmean ((a :: b :: t).map Meas.weight) * (3 / 10) ≠ 0 := by
        intro h0
        rw [h0] at hsw
        exact lt_irrefl 0 (by linarith)
      congr 1
      rw [add_zero, add_zero,
        show qmean ((a :: b :: t).map Meas.value) * qmean ((a :: b :: t).map Meas.weight) * (3 / 10)
          = qmean ((a :: b :: t).map Meas.value) * (qmean ((a :: b :: t).map Meas.weight) * (3 / 10))
          from by ring]
      exact mul_div_cancel_right₀ _ hne
    · rw [if_neg hsw]
  · intro hall hw
    have hs : (a :: b :: t).filter (fun m => m.source == Source.satellite) = [] :=
      List.filter_eq_nil_iff.mpr (fun m hm => by
        rw [source_beq_eq]
        simp [hall m hm])
    have hg : (a :: b :: t).filter (fun m => m.source == Source.ground) = a :: b :: t :=
      List.filter_eq_self.mpr (fun m hm => by
        rw [source_beq_eq]
        exact decide_eq_true (hall m hm))
    rw [spatialFusion_cons_cons, hg, hs]
    have hne : ((a :: b :: t).map (groundFinalWeight d tlat tlon)).sum ≠ 0 := ne_of_gt hw
    have hgb : groundBranch d tlat tlon (a :: b :: t) =
        Except.ok
          ((((a :: b :: t).zip ((a :: b :: t).map (groundFinalWeight d tlat tlon))).map
              (fun q => q.1.value * q.2)).sum /
              ((a :: b :: t).map (groundFinalWeight d tlat tlon)).sum *
            min ((a :: b :: t).map (groundFinalWeight d tlat tlon)).sum 1 * (7 / 10),
            min ((a :: b :: t).map (groundFinalWeight d tlat tlon)).sum 1 * (7 / 10)) := by
      unfold groundBranch
      rw [if_neg (by simp), if_neg hne]
    rw [hgb]
    have hsb : satBranch ([] : List Meas) = (0, 0) := rfl
    simp only [hsb]
    have hminpos : 0 < min ((a :: b :: t).map (groundFinalWeight d tlat tlon)).sum 1 :=
      lt_min_iff.mpr ⟨hw, one_pos⟩
    have hcpos : 0 < min ((a :: b :: t).map (groundFinalWeight d tlat tlon)).sum 1 * (7 / 10) := by
      linarith
    rw [if_pos (by simpa using hcpos)]
    congr 1
    rw [zero_add, zero_add,
      show ∀ x c : ℚ, x * min ((a :: b :: t).map (groundFinalWeight d tlat tlon)).sum 1 * c
        = x * (min ((a :: b :: t).map (groundFinalWeight d tlat tlon)).sum 1 * c)
        from fun x c => by ring]
    exact mul_div_cancel_right₀ _ (ne_of_gt hcpos)
  · intro q hok htw
    rw [spatialFusion_cons_cons] at hok
    unfold fusionTotalWeight at htw
    cases hgb : groundBranch d tlat tlon
        ((a :: b :: t).filter (fun m => m.source == Source.ground)) with
    | error e =>
      rw [hgb] at hok
      exact Except.noConfusion hok
    | ok g =>
      rw [hgb] at hok htw
      simp only at hok htw
      rw [if_neg (by rw [htw]; exact lt_irrefl 0)] at hok
      simp only [Except.ok.injEq] at hok
      exact hok.symm

/-- Witness for `spatial_fusion_renormalized`: two satellite measurements
with values 20 and 40 fuse to their plain mean. -/
theorem spatial_fusion_renormalized_witness :
    spatialFusion (fun _ _ _ _ => 0) 0 0
      [⟨Source.satellite, 0, 0, 20, "u", 4 / 5, none⟩,
        ⟨Source.satellite, 0, 0, 40, "u", 4 / 5, none⟩] =
      Except.ok (qmean
        ([⟨Source.satellite, 0, 0, 20, "u", 4 / 5, none⟩,
            (⟨Source.satellite, 0, 0, 40, "u", 4 / 5, none⟩ : Meas)].map Meas.value)) :=
  (spatial_fusion_renormalized (fun _ _ _ _ => 0) 0 0
      [⟨Source.satellite, 0, 0, 20, "u", 4 / 5, none⟩,
        ⟨Source.satellite, 0, 0, 40, "u", 4 / 5, none⟩]
      (by decide)).1
    (by decide)

/-- C2: fusing a list of exactly one measurement yields a success record
whose fused value is that measurement value, rounded to two decimals, with
no blending applied. -/
theorem fuse_single_measurement (msqrt : ℚ → ℚ) (d : ℚ → ℚ → ℚ → ℚ → ℚ)
    (tlat tlon : ℚ) (p : Pollutant) (weather : Option WeatherInfo) (jitter : ℚ)
    (m : Meas) :
    ∃ r, fusePollutantData msqrt d tlat tlon p weather jitter [m] =
        Except.ok (FuseOutcome.success r) ∧
      r.fusedValue = round2 m.value := by
  refine ⟨_, rfl, rfl⟩

/-- C10: every empty measurement list, whatever the weather context, routes
fusion to the contextual estimator rather than an error, and the estimator
result carries quality level `estimated`, quality score `0.2`, a
non-negative value `round2(raw)` and uncertainty `round2(0.4 * raw)` for
the raw estimate `raw ≥ 0`; with weather context available the raw estimate
is the baseline scaled by the wind and boundary-layer factors plus jitter,
and without weather context it is the bare baseline plus jitter. -/
theorem empty_list_contextual_estimate (msqrt : ℚ → ℚ) (d : ℚ → ℚ → ℚ → ℚ → ℚ)
    (tlat tlon : ℚ) (p : Pollutant) (weather : Option WeatherInfo) (jitter : ℚ) :
    fusePollutantData msqrt d tlat tlon p weather jitter [] =
      Except.ok (FuseOutcome.estimated (generateEstimatedValue p weather jitter)) ∧
    (generateEstimatedValue p weather jitter).qualityLevel = "estimated" ∧
    (generateEstimatedValue p weather jitter).qualityScore = 2 / 10 ∧
    0 ≤ (generateEstimatedValue p weather jitter).value ∧
    (generateEstimatedValue p weather jitter).value =
      round2 (estimatedRawValue p weather jitter) ∧
    (generateEstimatedValue p weather jitter).uncertainty =
      round2 (estimatedRawValue p weather jitter * (4 / 10)) ∧
    0 ≤ estimatedRawValue p weather jitter ∧
    (∀ w, weather = some w →
      estimatedRawValue p weather jitter =
        max 0 (baseValue p * (windFactor w.windSpeed * pblFactor w.pblHeight) + jitter)) ∧
    (weather = none →
      estimatedRawValue p weather jitter = max 0 (baseValue p + jitter)) := by
  refine ⟨rfl, rfl, rfl, ?_, rfl, rfl, le_max_left 0 _, ?_, ?_⟩
  · exact round2_nonneg (le_max_left 0 _)
  · intro w hw
    subst hw
    rfl
  · intro hw
    subst hw
    rfl

/-- Witness for `empty_list_contextual_estimate`: the raw NO2 estimate with
zero jitter is the bare baseline without weather context, and the scaled
baseline with a concrete weather context. -/
theorem empty_list_contextual_estimate_witness :
    estimatedRawValue Pollutant.NO2 none 0 = max 0 (baseValue Pollutant.NO2 + 0) ∧
    estimatedRawValue Pollutant.NO2 (some ⟨5, 800⟩) 0 =
      max 0 (baseValue Pollutant.NO2 * (windFactor 5 * pblFactor 800) + 0) :=
  ⟨(empty_list_contextual_estimate (fun q => q) (fun _ _ _ _ => 0) 0 0
        Pollutant.NO2 none 0).2.2.2.2.2.2.2.2 rfl,
    (empty_list_contextual_estimate (fun q => q) (fun _ _ _ _ => 0) 0 0
        Pollutant.NO2 (some ⟨5, 800⟩) 0).2.2.2.2.2.2.2.1 ⟨5, 800⟩ rfl⟩

/-- C6: in a forecast driven by one fused estimate (so the fused-uncertainty
feature is present), the uncertainty at offset `h` is
`round2(fused.uncertainty * (1 + 0.05 * h))`, and it is monotone in the
horizon. -/
theorem forecast_uncertainty_growth (jitter : ℕ → ℚ) (currentOpt : Option ℚ)
    (u0 : ℚ) (p : Pollutant) (h0 dw0 h1 h2 : ℕ) (hu : 0 ≤ u0) (hlt : h1 < h2) :
    (∀ h : ℕ, (predictionAtHour jitter currentOpt (some u0) p h0 dw0 h).uncertainty =
      round2 (u0 * (1 + (h : ℚ) * (5 / 100)))) ∧
    (predictionAtHour jitter currentOpt (some u0) p h0 dw0 h1).uncertainty ≤
      (predictionAtHour jitter currentOpt (some u0) p h0 dw0 h2).uncertainty := by
  have hform : ∀ h : ℕ,
      (predictionAtHour jitter currentOpt (some u0) p h0 dw0 h).uncertainty =
        round2 (u0 * (1 + (h : ℚ) * (5 / 100))) := fun h => rfl
  refine ⟨hform, ?_⟩
  rw [hform h1, hform h2]
  apply round2_mono
  apply mul_le_mul_of_nonneg_left _ hu
  have hc : (h1 : ℚ) ≤ (h2 : ℚ) := by exact_mod_cast hlt.le
  linarith

/-- Witness for `forecast_uncertainty_growth` at fused uncertainty 12 and
horizons 1 and 2. -/
theorem forecast_uncertainty_growth_witness :
    (∀ h : ℕ, (predictionAtHour (fun _ => 0) (some 25) (some 12) Pollutant.NO2 0 0 h).uncertainty =
      round2 (12 * (1 + (h : ℚ) * (5 / 100)))) ∧
    (predictionAtHour (fun _ => 0) (some 25) (some 12) Pollutant.NO2 0 0 1).uncertainty ≤
      (predictionAtHour (fun _ => 0) (some 25) (some 12) Pollutant.NO2 0 0 2).uncertainty :=
  forecast_uncertainty_growth (fun _ => 0) (some 25) 12 Pollutant.NO2 0 0 1 2
    (by norm_num) (by norm_num)

theorem roundHalfEven_intCast (z : ℤ) : roundHalfEven (z : ℚ) = z := by
  unfold roundHalfEven
  rw [Int.floor_intCast, sub_self]
  norm_num

theorem round2_intMul (q : ℚ) (z : ℤ) (h : q * 10 ^ 2 = (z : ℚ)) :
    round2 q = (z : ℚ) / 10 ^ 2 := by
  unfold round2 roundDp
  rw [h, roundHalfEven_intCast]

/-- C7 counterexample: with the realised stochastic variation equal to 1 at
every step, the reported forecast value differs from
`fused.value * hourly_pattern * daily_pattern` (here 36.75 versus 35.75). -/
theorem forecast_value_pattern_counterexample :
    (predictionAtHour (fun _ => 1) (some 25) (some 5) Pollutant.NO2 7 0 1).value ≠
      25 * getHourlyPattern Pollutant.NO2 ((7 + 1) % 24) *
        getDailyPattern Pollutant.NO2 ((0 + (7 + 1) / 24) % 7) := by
  have h1 : (predictionAtHour (fun _ => 1) (some 25) (some 5) Pollutant.NO2 7 0 1).value =
      round2 (max 0 (25 * (13 / 10) * (11 / 10) + 1)) := rfl
  have h2 : max (0 : ℚ) (25 * (13 / 10) * (11 / 10) + 1) = 147 / 4 := by
    rw [max_eq_right (by norm_num)]
    norm_num
  have h3 : 25 * getHourlyPattern Pollutant.NO2 ((7 + 1) % 24) *
      getDailyPattern Pollutant.NO2 ((0 + (7 + 1) / 24) % 7) = 25 * (13 / 10) * (11 / 10) := rfl
  rw [h1, h2, h3, round2_intMul (147 / 4) 3675 (by norm_num)]
  norm_num

theorem dailyPattern_NO2_bounds (dw : ℕ) (hdw : dw < 7) :
    4 / 5 ≤ getDailyPattern Pollutant.NO2 dw ∧
      getDailyPattern Pollutant.NO2 dw ≤ 11 / 10 := by
  interval_cases dw <;>
    exact ⟨by norm_num [getDailyPattern, dailyFactors],
      by norm_num [getDailyPattern, dailyFactors]⟩

/-- C7 (amended): the reported forecast value equals
`round2(max(0, fused.value * hourly_pattern * daily_pattern + jitter))`,
where `jitter` is the realised stochastic variation of that step; pollutants
without their own tables fall back to the PM2.5 tables; and with zero
jitter a NO2 forecast from fused baseline 25 is strictly larger at
hour-of-day 8 (multiplier 1.3) than at hour-of-day 3 (multiplier 0.4). -/
theorem forecast_value_pattern :
    (∀ (jitter : ℕ → ℚ) (c : ℚ) (uOpt : Option ℚ) (p : Pollutant) (h0 dw0 h : ℕ),
      (predictionAtHour jitter (some c) uOpt p h0 dw0 h).value =
        round2 (max 0 (c * getHourlyPattern p ((h0 + h) % 24) *
          getDailyPattern p ((dw0 + (h0 + h) / 24) % 7) + jitter h))) ∧
    (∀ p : Pollutant, p ≠ Pollutant.NO2 → p ≠ Pollutant.O3 → p ≠ Pollutant.PM25 →
      (∀ h, getHourlyPattern p h = getHourlyPattern Pollutant.PM25 h) ∧
      (∀ dw, getDailyPattern p dw = getDailyPattern Pollutant.PM25 dw)) ∧
    (∀ (uOpt : Option ℚ) (h0 dw0 h1 h2 : ℕ),
      (h0 + h1) % 24 = 8 → (h0 + h2) % 24 = 3 →
      (predictionAtHour (fun _ => 0) (some 25) uOpt Pollutant.NO2 h0 dw0 h2).value <
        (predictionAtHour (fun _ => 0) (some 25) uOpt Pollutant.NO2 h0 dw0 h1).value) := by
  refine ⟨fun jitter c uOpt p h0 dw0 h => rfl, ?_, ?_⟩
  · intro p hp1 hp2 hp3
    cases p with
    | NO2 => exact absurd rfl hp1
    | O3 => exact absurd rfl hp2
    | PM25 => exact absurd rfl hp3
    | PM10 => exact ⟨fun h => rfl, fun dw => rfl⟩
    | HCHO => exact ⟨fun h => rfl, fun dw => rfl⟩
    | SO2 => exact ⟨fun h => rfl, fun dw => rfl⟩
    | CO => exact ⟨fun h => rfl, fun dw => rfl⟩
  · intro uOpt h0 dw0 h1 h2 hh8 hh3
    have hv : ∀ h : ℕ,
        (predictionAtHour (fun _ => 0) (some 25) uOpt Pollutant.NO2 h0 dw0 h).value =
          round2 (max 0 (25 * getHourlyPattern Pollutant.NO2 ((h0 + h) % 24) *
            getDailyPattern Pollutant.NO2 ((dw0 + (h0 + h) / 24) % 7) + 0)) := fun h => rfl
    have hd1 := dailyPattern_NO2_bounds ((dw0 + (h0 + h1) / 24) % 7) (Nat.mod_lt _ (by norm_num))
    have hd2 := dailyPattern_NO2_bounds ((dw0 + (h0 + h2) / 24) % 7) (Nat.mod_lt _ (by norm_num))
    rw [hv h1, hv h2, hh8, hh3]
    have hp8 : getHourlyPattern Pollutant.NO2 8 = 13 / 10 := rfl
    have hp3 : getHourlyPattern Pollutant.NO2 3 = 4 / 10 := rfl
    rw [hp8, hp3]
    calc round2 (max 0 (25 * (4 / 10) *
          getDailyPattern Pollutant.NO2 ((dw0 + (h0 + h2) / 24) % 7) + 0))
        ≤ round2 11 := round2_mono (max_le (by norm_num) (by linarith [hd2.2]))
      _ = 11 := by rw [round2_intMul 11 1100 (by norm_num)]; norm_num
      _ < 26 := by norm_num
      _ = round2 26 := by rw [round2_intMul 26 2600 (by norm_num)]; norm_num
      _ ≤ round2 (max 0 (25 * (13 / 10) *
          getDailyPattern Pollutant.NO2 ((dw0 + (h0 + h1) / 24) % 7) + 0)) :=
        round2_mono (le_trans (by linarith [hd1.1]) (le_max_right 0 _))

/-- Witness for `forecast_value_pattern`: the NO2 forecast value one hour
after 07:00 Monday (hour-of-day 8) strictly exceeds the value twenty hours
after (hour-of-day 3). -/
theorem forecast_value_pattern_witness :
    (predictionAtHour (fun _ => 0) (some 25) (some 5) Pollutant.NO2 7 0 20).value <
      (predictionAtHour (fun _ => 0) (some 25) (some 5) Pollutant.NO2 7 0 1).value :=
  forecast_value_pattern.2.2 (some 5) 7 0 1 20 (by norm_num) (by norm_num)

theorem countContribution_bounds (n : ℕ) :
    0 ≤ (countContribution n).1 ∧ (countContribution n).1 ≤ 3 / 10 := by
  unfold countContribution
  split_ifs <;> norm_num

theorem diversityContribution_bounds (ms : List Meas) :
    0 ≤ (diversityContribution ms).1 ∧ (diversityContribution ms).1 ≤ 3 / 10 := by
  unfold diversityContribution
  dsimp only
  split_ifs <;> norm_num

theorem freshnessContribution_bounds (ms : List Meas) :
    0 ≤ (freshnessContribution ms).1 ∧ (freshnessContribution ms).1 ≤ 2 / 10 := by
  unfold freshnessContribution
  split_ifs with h
  · exact ⟨le_min (by norm_num) (by positivity), min_le_left _ _⟩
  · norm_num

theorem spatialContribution_bounds (d : ℚ → ℚ → ℚ → ℚ → ℚ) (ms : List Meas) :
    0 ≤ (spatialContribution d ms).1 ∧ (spatialContribution d ms).1 ≤ 2 / 10 := by
  unfold spatialContribution
  dsimp only
  split_ifs <;> norm_num

theorem assessDataQuality_score_nonempty (d : ℚ → ℚ → ℚ → ℚ → ℚ) (ms : List Meas)
    (hne : ¬ms.isEmpty) :
    (assessDataQuality d ms).score =
      round2 ((countContribution ms.length).1 + (diversityContribution ms).1 +
        (freshnessContribution ms).1 + (spatialContribution d ms).1) := by
  unfold assessDataQuality
  rw [if_neg hne]

theorem round2_one : round2 1 = 1 := by
  rw [round2_intMul 1 100 (by norm_num)]
  norm_num

/-- C8: the quality score always lies in the unit interval (the four capped
contributions sum to at most 1), and the empty measurement list is assessed
as score 0 with level `no_data`. -/
theorem quality_score_in_unit_interval (d : ℚ → ℚ → ℚ → ℚ → ℚ) (ms : List Meas) :
    (0 ≤ (assessDataQuality d ms).score ∧ (assessDataQuality d ms).score ≤ 1) ∧
    (assessDataQuality d []).score = 0 ∧ (assessDataQuality d []).level = "no_data" := by
  refine ⟨?_, rfl, rfl⟩
  by_cases he : ms.isEmpty
  · have h0 : assessDataQuality d ms = ⟨0, "no_data", [], 0, 0⟩ := by
      unfold assessDataQuality
      rw [if_pos he]
    rw [h0]
    norm_num
  · rw [assessDataQuality_score_nonempty d ms he]
    have h1 := countContribution_bounds ms.length
    have h2 := diversityContribution_bounds ms
    have h3 := freshnessContribution_bounds ms
    have h4 := spatialContribution_bounds d ms
    constructor
    · exact round2_nonneg (by linarith)
    · calc round2 ((countContribution ms.length).1 + (diversityContribution ms).1 +
          (freshnessContribution ms).1 + (spatialContribution d ms).1)
          ≤ round2 1 := round2_mono (by linarith)
        _ = 1 := round2_one


/-- C9: the fused-data entry point is a total function whose response is
always a tagged structure: the requested pollutant keys are preserved, the
status is `success` exactly when collection did not raise (otherwise the
tagged fallback response is returned), and a pollutant whose fusion raises
is mapped to a tagged error entry carrying its fallback value.  The
enhanced-prediction HTTP handler returns either a 200 payload or a 400
structured error, the 200 case exactly on structurally valid input. -/
theorem entry_points_never_raise (collect : Except String DataSources)
    (msqrt : ℚ → ℚ) (d : ℚ → ℚ → ℚ → ℚ → ℚ) (tlat tlon : ℚ)
    (jitter : Pollutant → ℚ) (ps : List Pollutant) :
    ((getFusedAirQualityData collect msqrt d tlat tlon jitter ps).results.map
        Prod.fst = ps) ∧
    ((getFusedAirQualityData collect msqrt d tlat tlon jitter ps).status =
        TopStatus.success ↔ ∃ ds, collect = Except.ok ds) ∧
    (∀ ds p, collect = Except.ok ds → p ∈ ps →
      fusePollutantData msqrt d tlat tlon p ds.weather (jitter p)
          (ds.measurementsFor p) = Except.error () →
      (p, PollutantEntry.error (getFallbackValue p)) ∈
        (getFusedAirQualityData collect msqrt d tlat tlon jitter ps).results) ∧
    (∀ (A : Type) (latOpt lonOpt : Option ℚ) (pol : String) (fh : ℤ)
        (svc : ℚ → ℚ → String → ℤ → A),
      (∃ payload, enhancedPredictionRoute latOpt lonOpt pol fh svc =
          RouteResponse.ok 200 payload) ∨
      (∃ msg, enhancedPredictionRoute latOpt lonOpt pol fh svc =
          RouteResponse.badRequest 400 msg)) ∧
    (∀ (A : Type) (lat lon : ℚ) (pol : String) (fh : ℤ)
        (svc : ℚ → ℚ → String → ℤ → A),
      -90 ≤ lat → lat ≤ 90 → -180 ≤ lon → lon ≤ 180 →
      validPollutantNames.contains pol = true → 1 ≤ fh → fh ≤ 72 →
      enhancedPredictionRoute (some lat) (some lon) pol fh svc =
        RouteResponse.ok 200 (svc lat lon pol fh)) := by
  have hmap : ∀ (f : Pollutant → PollutantEntry) (l : List Pollutant),
      (l.map (fun p => (p, f p))).map Prod.fst = l := by
    intro f l
    induction l with
    | nil => rfl
    | cons a t ih => simp [ih]
  refine ⟨?_, ?_, ?_, ?_, ?_⟩
  · cases collect with
    | error e => exact hmap _ ps
    | ok ds => exact hmap _ ps
  · cases collect with
    | error e =>
      constructor
      · intro h
        exact absurd h (by simp [getFusedAirQualityData])
      · rintro ⟨ds, hds⟩
        exact Except.noConfusion hds
    | ok ds =>
      constructor
      · intro _
        exact ⟨ds, rfl⟩
      · intro _
        rfl
  · intro ds p hcol hp hfe
    subst hcol
    refine List.mem_map.mpr ⟨p, hp, ?_⟩
    simp [getFusedAirQualityData, hfe]
  · intro A latOpt lonOpt pol fh svc
    cases latOpt with
    | none =>
      cases lonOpt with
      | none => exact Or.inr ⟨_, rfl⟩
      | some lon => exact Or.inr ⟨_, rfl⟩
    | some lat =>
      cases lonOpt with
      | none => exact Or.inr ⟨_, rfl⟩
      | some lon =>
        simp only [enhancedPredictionRoute]
        split_ifs with h1 h2 h3
        · exact Or.inr ⟨_, rfl⟩
        · exact Or.inl ⟨_, rfl⟩
        · exact Or.inr ⟨_, rfl⟩
        · exact Or.inr ⟨_, rfl⟩
  · intro A lat lon pol fh svc hla hlb hlo1 hlo2 hpol hf1 hf2
    simp only [enhancedPredictionRoute]
    have hc1 : ¬(¬(-90 ≤ lat ∧ lat ≤ 90) ∨ ¬(-180 ≤ lon ∧ lon ≤ 180)) := by
      push_neg
      exact ⟨⟨hla, hlb⟩, ⟨hlo1, hlo2⟩⟩
    have hc2 : ¬¬(validPollutantNames.contains pol = true) :=
      not_not_intro hpol
    have hc3 : ¬¬(1 ≤ fh ∧ fh ≤ 72) := by
      push_neg
      exact ⟨hf1, hf2⟩
    rw [if_neg hc1, if_neg hc2, if_neg hc3]

/-- Witness for `entry_points_never_raise`: a concrete structurally valid
request is answered with code 200 and the service payload. -/
theorem entry_points_never_raise_witness :
    enhancedPredictionRoute (some 40) (some (-74)) "NO2" 24
        (fun _ _ _ _ => (0 : ℕ)) = RouteResponse.ok 200 0 :=
  (entry_points_never_raise (Except.error "unavailable") (fun q => q)
      (fun _ _ _ _ => 0) 0 0 (fun _ => 0) []).2.2.2.2 ℕ 40 (-74) "NO2" 24
    (fun _ _ _ _ => 0) (by norm_num) (by norm_num) (by norm_num) (by norm_num)
    (by decide) (by norm_num) (by norm_num)

theorem inFusionDistWeight_pos {K : Type} [LinearOrderedField K] (dk : K) :
    0 < inFusionDistWeight dk := by
  unfold inFusionDistWeight
  split_ifs
  · norm_num
  · positivity

theorem inFusionDistWeight_antitone {K : Type} [LinearOrderedField K] {d1 d2 : K}
    (h0 : 0 ≤ d1) (h12 : d1 ≤ d2) : inFusionDistWeight d2 ≤ inFusionDistWeight d1 := by
  unfold inFusionDistWeight
  split_ifs with ha hb hc
  · exact le_refl 1
  · exact absurd (lt_of_le_of_lt h12 ha) hb
  · rw [div_le_one (by positivity)]
    nlinarith [sq_nonneg d2]
  · exact one_div_le_one_div_of_le (by positivity) (by nlinarith)

theorem calcDistanceWeight_nonneg (dk r : ℝ) : 0 ≤ calcDistanceWeight dk r := by
  unfold calcDistanceWeight
  split_ifs
  · exact le_refl 0
  · exact (Real.exp_pos _).le

theorem calcDistanceWeight_zero_of_ge (dk r : ℝ) (h : r ≤ dk) :
    calcDistanceWeight dk r = 0 :=
  if_pos h

theorem calcDistanceWeight_antitone {r d1 d2 : ℝ} (hr : 0 < r) (h12 : d1 ≤ d2) :
    calcDistanceWeight d2 r ≤ calcDistanceWeight d1 r := by
  unfold calcDistanceWeight
  split_ifs with ha hb hc
  · exact le_refl 0
  · exact (Real.exp_pos _).le
  · exact absurd (le_trans hc h12) ha
  · apply Real.exp_le_exp.mpr
    apply neg_le_neg
    exact div_le_div_of_nonneg_right h12 (div_nonneg hr.le (by norm_num))

/-- C5 counterexample: the effective fusion weight of a ground measurement
at 5 km inside a 50 km radius is not `1.0 * distance_weight` with
`distance_weight = 1 / (1 + 5 ^ 2)`; the stored weight contributes the
additional exponential factor `exp(-0.3) < 1`. -/
theorem ground_effective_weight_counterexample :
    groundEffectiveWeight 5 50 ≠ groundBaseWeight * inFusionDistWeight (5 : ℝ) := by
  unfold groundEffectiveWeight groundBaseWeight calcDistanceWeight inFusionDistWeight
  rw [if_neg (show ¬(50 : ℝ) ≤ 5 by norm_num),
    if_neg (show ¬(5 : ℝ) < 1 / 10 by norm_num)]
  rw [one_mul, one_mul]
  intro h
  have hcan : Real.exp (-(5 / (50 / 3))) * (1 / (1 + (5 : ℝ) ^ 2)) =
      1 * (1 / (1 + (5 : ℝ) ^ 2)) := by
    rw [one_mul]
    exact h
  have hone : Real.exp (-(5 / (50 / 3))) = 1 :=
    mul_right_cancel₀ (by norm_num) hcan
  rw [Real.exp_eq_one_iff] at hone
  norm_num at hone

/-- C5 (amended): the effective weight a ground measurement carries into the
blend is `ground_base_weight(1.0) * exp(-distance / (radius / 3)) *
inverse_distance_weight(distance)` (the stored exponential-decay weight
times the in-fusion inverse-square weight), it vanishes exactly at and
above the search radius, it is antitone in the distance, and for two ground
measurements with equal value and equal stored weight the closer one
carries at least as much final weight. -/
theorem ground_effective_weight_props :
    (∀ dk r : ℝ, r ≤ dk → groundEffectiveWeight dk r = 0) ∧
    (∀ dk r : ℝ, 1 / 10 ≤ dk → dk < r →
      groundEffectiveWeight dk r = Real.exp (-(dk / (r / 3))) * (1 / (1 + dk ^ 2))) ∧
    (∀ r d1 d2 : ℝ, 0 < r → 0 ≤ d1 → d1 ≤ d2 →
      groundEffectiveWeight d2 r ≤ groundEffectiveWeight d1 r) ∧
    (∀ w d1 d2 : ℚ, 0 ≤ w → 0 ≤ d1 → d1 ≤ d2 →
      w * inFusionDistWeight d2 ≤ w * inFusionDistWeight d1) := by
  refine ⟨?_, ?_, ?_, ?_⟩
  · intro dk r h
    unfold groundEffectiveWeight
    rw [calcDistanceWeight_zero_of_ge dk r h]
    ring
  · intro dk r h1 h2
    unfold groundEffectiveWeight groundBaseWeight calcDistanceWeight inFusionDistWeight
    rw [if_neg (not_le.mpr h2), if_neg (not_lt.mpr h1), one_mul]
  · intro r d1 d2 hr h0 h12
    unfold groundEffectiveWeight groundBaseWeight
    rw [one_mul, one_mul]
    exact mul_le_mul (calcDistanceWeight_antitone hr h12)
      (inFusionDistWeight_antitone h0 h12) (inFusionDistWeight_pos d2).le
      (calcDistanceWeight_nonneg d1 r)
  · intro w d1 d2 hw h0 h12
    exact mul_le_mul_of_nonneg_left (inFusionDistWeight_antitone h0 h12) hw

/-- Witness for `ground_effective_weight_props`: at 60 km with a 50 km
radius the effective weight is exactly zero. -/
theorem ground_effective_weight_props_witness :
    groundEffectiveWeight 60 50 = 0 :=
  ground_effective_weight_props.1 60 50 (by norm_num)

end Fusion
